import Mathlib

/-!
Verification of the Jarvis voice-assistant turn controller
(`src/arvis_assistant.py`) against its specification.

The program is a sequential pipeline: wait for a wake line, record a
fixed-duration WAV clip to a temporary file, transcribe it, query the
inference backend, speak the reply, and delete the temporary file in a
`finally` block.  We shallowly embed the controller: pure string helpers
model Python's `str.strip`/`str.lower`; the filesystem is a list of paths;
each external collaborator (capture device, Whisper, Gemini, TTS) is an
oracle recording whether its call succeeds and what it returns; the loop
body of `main` becomes `runTurn`, and the `while True` loop becomes
`runLoop` over a finite script of wake events.
-/

namespace Jarvis

/-- Whitespace recognised by Python's default `str.strip` (ASCII subset:
space, tab, newline, carriage return, vertical tab, form feed). -/
def pyIsSpace (c : Char) : Bool :=
  c = ' ' || c = '\t' || c = '\n' || c = '\r' || c = '\x0b' || c = '\x0c'

/-- Model of Python `str.strip()`: drop whitespace from both ends. -/
def pyStrip (s : String) : String :=
  String.mk (((s.data.dropWhile pyIsSpace).reverse.dropWhile pyIsSpace).reverse)

/-- Model of Python `str.lower()` (ASCII case folding). -/
def pyLower (s : String) : String :=
  String.mk (s.data.map Char.toLower)

/-- Error taxonomy of the spec: one constructor per failing stage, plus the
`FileNotFoundError` that `os.remove` raises on a missing path. -/
inductive Err
  | capture
  | artifact
  | transcription
  | inference
  | playback
  | fileNotFound
deriving DecidableEq, Repr

/-- Filesystem model: the set of existing paths, as a duplicate-free list. -/
abbrev Fs := List String

/-- Model of `os.path.exists`. -/
def os_path_exists (p : String) (fs : Fs) : Bool :=
  decide (p ∈ fs)

/-- Model of `os.remove`: deletes the path, raising `FileNotFoundError`
when it does not exist. -/
def os_remove (p : String) (fs : Fs) : Except Err Fs :=
  if p ∈ fs then Except.ok (fs.erase p) else Except.error Err.fileNotFound

/-- Creating a file: adds the path to the filesystem. -/
def fsAdd (p : String) (fs : Fs) : Fs :=
  if p ∈ fs then fs else p :: fs

/-- The artifact release step of `main`'s `finally` block
(`if os.path.exists(wav_path): os.remove(wav_path)`). -/
def releaseArtifact (p : String) (fs : Fs) : Except Err Fs :=
  if os_path_exists p fs then os_remove p fs else Except.ok fs

/-! ### Capture: `record_audio` (data view)

`record_audio` calls `sd.rec(int(duration * samplerate), ...)` with
`dtype="int16"`, waits, and writes the buffer into a WAV container with
`setnchannels(channels)`, `setsampwidth(2)`, `setframerate(samplerate)`. -/

/-- A WAV container: header fields plus the PCM frames (one inner list of
samples per frame, one sample per channel). -/
structure WavFile where
  nchannels : Nat
  sampwidth : Nat
  framerate : Nat
  frames : List (List Int)
deriving DecidableEq, Repr

/-- Conversion of a raw device value into a 16-bit signed sample
(the `dtype="int16"` of `sd.rec`). -/
def intoInt16 (x : Int) : Int :=
  (x + 32768) % 65536 - 32768

/-- Model of `sd.rec(nframes, samplerate, channels, dtype="int16", device)`:
returns exactly `nframes` frames of `channels` int16 samples read from the
device stream `mic` (frame index, channel index ↦ raw value). -/
def sd_rec (nframes : Nat) (channels : Nat) (_device : Option Nat)
    (mic : Nat → Nat → Int) : List (List Int) :=
  (List.range nframes).map fun i =>
    (List.range channels).map fun c => intoInt16 (mic i c)

/-- Model of `record_audio` (source lines 24–45), data view: capture
`int(duration * samplerate)` frames, then build the WAV container with the
given channel count, sample width 2 and the given frame rate.  In the
source, `samplerate`, `channels`, `duration` default to 16000, 1, 10. -/
def record_audio (device_index : Option Nat) (mic : Nat → Nat → Int)
    (samplerate : Nat) (channels : Nat) (duration : Nat) : WavFile :=
  let recording := sd_rec (duration * samplerate) channels device_index mic
  { nchannels := channels
    sampwidth := 2
    framerate := samplerate
    frames := recording }

/-! ### The turn body (control view)

The loop body of `main` (source lines 108–125) sequences
`record_audio`, then a `try` block running transcription, inference and
playback, then a `finally` block releasing the artifact.  Each collaborator
call is abstracted by an oracle saying whether it succeeds and with what
text; the trace records every collaborator call that was made, with its
argument. -/

/-- Scripted behaviour of the collaborators for one turn: whether `sd.rec`
and `sd.wait` succeed, whether the temporary WAV file can be created (and
its fresh path), and the outcomes of the transcription, inference and
playback calls. -/
structure Oracle where
  captureOk : Bool
  createOk : Bool
  wavPath : String
  transcribeRes : Except Unit String
  inferRes : Except Unit String
  speakOk : Bool
deriving Repr

/-- A collaborator call made during a turn, with its argument. -/
inductive Call
  | capture
  | create
  | transcribe (path : String)
  | infer (prompt : String)
  | speak (text : String)
deriving DecidableEq, Repr

/-- How the `try` block (or the whole turn body) finishes: normally, or
with an exception propagating out. -/
inductive TurnOutcome
  | ok
  | raised (e : Err)
deriving DecidableEq, Repr

/-- Result of one iteration of the loop body: calls made, resulting
filesystem, and how the body finished. -/
structure TurnResult where
  calls : List Call
  fs : Fs
  outcome : TurnOutcome
deriving DecidableEq, Repr

/-- The `try` block of `main` (source lines 112–122): transcribe the WAV
file; on success pass the text to `ask_gemini` unconditionally; on success
pass the reply to `speak`.  There is no `except` clause: the first raising
stage aborts the block with its error. -/
def tryBody (o : Oracle) (wav : String) : List Call × TurnOutcome :=
  match o.transcribeRes with
  | Except.error _ => ([Call.transcribe wav], TurnOutcome.raised Err.transcription)
  | Except.ok text =>
    match o.inferRes with
    | Except.error _ =>
      ([Call.transcribe wav, Call.infer text], TurnOutcome.raised Err.inference)
    | Except.ok reply =>
      if o.speakOk then
        ([Call.transcribe wav, Call.infer text, Call.speak reply], TurnOutcome.ok)
      else
        ([Call.transcribe wav, Call.infer text, Call.speak reply],
          TurnOutcome.raised Err.playback)

/-- One iteration of the wake-fired loop body (source lines 110–125):
`record_audio` first captures (`sd.rec`/`sd.wait`), then creates the
temporary WAV file; an error in either propagates with no `finally` in
scope (the `try` has not started).  Otherwise the `try` block runs and the
`finally` block releases the artifact on every exit path. -/
def runTurn (o : Oracle) (fs : Fs) : TurnResult :=
  if o.captureOk = false then
    { calls := [Call.capture], fs := fs, outcome := TurnOutcome.raised Err.capture }
  else if o.createOk = false then
    { calls := [Call.capture, Call.create], fs := fs
      outcome := TurnOutcome.raised Err.artifact }
  else
    let wav := o.wavPath
    let fs1 := fsAdd wav fs
    let body := tryBody o wav
    match releaseArtifact wav fs1 with
    | Except.ok fs2 =>
      { calls := [Call.capture, Call.create] ++ body.1, fs := fs2, outcome := body.2 }
    | Except.error e =>
      { calls := [Call.capture, Call.create] ++ body.1, fs := fs1
        outcome := TurnOutcome.raised e }

/-! ### Wake detection and the main loop -/

/-- What happens at the `input()` prompt: the operator types a line, or a
`KeyboardInterrupt` is delivered. -/
inductive WakeEvent
  | line (s : String)
  | interrupt
deriving DecidableEq, Repr

/-- Model of `detect_wake_word` (source lines 82–89): read a line, strip
and lowercase it, and compare with "jarvis"; a `KeyboardInterrupt` is
caught and turns into `sys.exit(0)`, modelled as `Except.error 0`. -/
def detect_wake_word : WakeEvent → Except Nat Bool
  | WakeEvent.line s => Except.ok (pyLower (pyStrip s) == "jarvis")
  | WakeEvent.interrupt => Except.error 0

/-- How the process run ends (for a finite script): still looping, exited
via `sys.exit code`, or terminated by an uncaught exception. -/
inductive ProcResult
  | running
  | exited (code : Nat)
  | crashed (e : Err)
deriving DecidableEq, Repr

/-- Observable process state after consuming a script: all collaborator
calls made, the final filesystem, and how the run ended. -/
structure ProcState where
  calls : List Call
  fs : Fs
  result : ProcResult
deriving DecidableEq, Repr

/-- Model of the `while True` loop of `main` (source lines 108–125) over a
finite script of wake events, each paired with that turn's collaborator
oracle.  `sys.exit` propagates out (exit code 0); a non-wake line loops
without any collaborator call; a wake line runs one turn, and since `main`
has no `except` clause, a raised turn outcome terminates the process. -/
def runLoop : List (WakeEvent × Oracle) → Fs → ProcState
  | [], fs => { calls := [], fs := fs, result := ProcResult.running }
  | (ev, o) :: rest, fs =>
    match detect_wake_word ev with
    | Except.error code => { calls := [], fs := fs, result := ProcResult.exited code }
    | Except.ok false => runLoop rest fs
    | Except.ok true =>
      let t := runTurn o fs
      match t.outcome with
      | TurnOutcome.raised er =>
        { calls := t.calls, fs := t.fs, result := ProcResult.crashed er }
      | TurnOutcome.ok =>
        let s := runLoop rest t.fs
        { calls := t.calls ++ s.calls, fs := s.fs, result := s.result }

/-! ### Startup and the Gemini adapter -/

/-- Model of `os.environ.get`: look the key up in the environment,
returning `none` (not raising) when it is absent. -/
def os_environ_get (env : List (String × String)) (k : String) : Option String :=
  (env.find? fun p => p.1 == k).map Prod.snd

/-- The configuration state held by the `google.generativeai` module. -/
structure GenaiConfig where
  api_key : Option String
deriving DecidableEq, Repr

/-- Model of `genai.configure(api_key=...)`: stores the credential without
validating its presence; a missing key surfaces only when a generation
call is made, not at configure time. -/
def genai_configure (key : Option String) : Except Err GenaiConfig :=
  Except.ok { api_key := key }

/-- The credential-loading part of process startup (source line 18):
`genai.configure(api_key=os.environ.get("GOOGLE_API_KEY"))`. -/
def startup (env : List (String × String)) : Except Err GenaiConfig :=
  genai_configure (os_environ_get env "GOOGLE_API_KEY")

/-- Model of `gemini_model.generate_content`: without a stored credential
the call fails (auth error); otherwise the backend oracle answers. -/
def generate_content (cfg : GenaiConfig) (backend : String → Except Unit String)
    (prompt : String) : Except Err String :=
  match cfg.api_key with
  | none => Except.error Err.inference
  | some _ =>
    match backend prompt with
    | Except.ok r => Except.ok r
    | Except.error _ => Except.error Err.inference

/-- Model of `ask_gemini` (source lines 65–68): call `generate_content`
and strip the reply text. -/
def ask_gemini (cfg : GenaiConfig) (backend : String → Except Unit String)
    (prompt : String) : Except Err String :=
  match generate_content cfg backend prompt with
  | Except.ok r => Except.ok (pyStrip r)
  | Except.error e => Except.error e

/-! ### Helper lemmas -/

/-- Adding a fresh path is list cons. -/
theorem fsAdd_of_not_mem (p : String) (fs : Fs) (h : p ∉ fs) :
    fsAdd p fs = p :: fs := by
  simp [fsAdd, h]

/-- Releasing a freshly added path restores the filesystem. -/
theorem releaseArtifact_fsAdd (p : String) (fs : Fs) (h : p ∉ fs) :
    releaseArtifact p (fsAdd p fs) = Except.ok fs := by
  simp [fsAdd_of_not_mem p fs h, releaseArtifact, os_path_exists, os_remove]

/-- The release step never raises: the `os.path.exists` guard shields
`os.remove` from `FileNotFoundError`. -/
theorem releaseArtifact_eq_ok (p : String) (fs : Fs) :
    releaseArtifact p fs = Except.ok (if p ∈ fs then fs.erase p else fs) := by
  by_cases h : p ∈ fs <;> simp [releaseArtifact, os_path_exists, os_remove, h]

/-- Unfolding of a turn whose capture and artifact creation succeed. -/
theorem runTurn_eq (o : Oracle) (fs : Fs)
    (hc : o.captureOk = true) (ha : o.createOk = true) :
    runTurn o fs =
      ⟨[Call.capture, Call.create] ++ (tryBody o o.wavPath).1,
        if o.wavPath ∈ fsAdd o.wavPath fs then (fsAdd o.wavPath fs).erase o.wavPath
        else fsAdd o.wavPath fs,
        (tryBody o o.wavPath).2⟩ := by
  simp [runTurn, hc, ha, releaseArtifact_eq_ok]

/-! ### Claims -/

/-- Claim C1: for every turn in which capture succeeds and produces an
artifact file, the artifact file is absent from storage after the turn
completes, whatever the transcription, inference and playback stages do:
the `finally` block deletes it on every exit path of the `try` block. -/
theorem c1_artifact_released (o : Oracle) (fs : Fs)
    (hc : o.captureOk = true) (ha : o.createOk = true) (hf : o.wavPath ∉ fs) :
    o.wavPath ∉ (runTurn o fs).fs := by
  simp [runTurn, hc, ha, releaseArtifact_fsAdd o.wavPath fs hf, hf]

/-- Witness for C1 at a concrete turn whose playback stage fails. -/
theorem c1_witness :
    ("a.wav" ∉ ([] : Fs)) ∧
    "a.wav" ∉ (runTurn ⟨true, true, "a.wav", Except.ok "hi", Except.ok "fine", false⟩ []).fs :=
  ⟨by decide, c1_artifact_released ⟨true, true, "a.wav", Except.ok "hi", Except.ok "fine", false⟩ [] rfl rfl (by decide)⟩

/-- Claim C5: an interrupt delivered while the controller waits for the
wake trigger makes the process exit with code 0, with no further
collaborator call of any kind. -/
theorem c5_interrupt_exits_cleanly (o : Oracle) (rest : List (WakeEvent × Oracle)) (fs : Fs) :
    runLoop ((WakeEvent.interrupt, o) :: rest) fs = ⟨[], fs, ProcResult.exited 0⟩ :=
  rfl

/-- Claim C10: the wake trigger fires exactly when the operator's line,
stripped and lowercased, equals "jarvis"; on any other line the iteration
makes no collaborator call and the loop simply waits again. -/
theorem c10_wake_trigger (s : String) (o : Oracle) (rest : List (WakeEvent × Oracle)) (fs : Fs) :
    detect_wake_word (WakeEvent.line s) = Except.ok (pyLower (pyStrip s) == "jarvis") ∧
    (pyLower (pyStrip s) ≠ "jarvis" →
      runLoop ((WakeEvent.line s, o) :: rest) fs = runLoop rest fs) := by
  refine ⟨rfl, fun h => ?_⟩
  have hb : (pyLower (pyStrip s) == "jarvis") = false := beq_eq_false_iff_ne.mpr h
  simp [runLoop, detect_wake_word, hb]

/-- Witness for C10: the line "  Hello " does not fire the trigger and the
iteration is a no-op. -/
theorem c10_witness :
    runLoop [(WakeEvent.line "  Hello ", ⟨true, true, "a.wav", Except.ok "x", Except.ok "y", true⟩)] []
      = runLoop [] [] :=
  (c10_wake_trigger "  Hello " ⟨true, true, "a.wav", Except.ok "x", Except.ok "y", true⟩ [] []).2
    (by decide)

/-- Counterexample to claim C2: a turn whose transcription stage raises
does not abort back to waiting — the error is uncaught, the process
terminates, and a second scripted wake turn is never reached. -/
theorem c2_counterexample :
    (runLoop [(WakeEvent.line "jarvis", ⟨true, true, "a.wav", Except.error (), Except.ok "r", true⟩),
        (WakeEvent.line "jarvis", ⟨true, true, "b.wav", Except.ok "hi", Except.ok "r", true⟩)] []).result
      = ProcResult.crashed Err.transcription ∧
    Call.transcribe "b.wav" ∉
      (runLoop [(WakeEvent.line "jarvis", ⟨true, true, "a.wav", Except.error (), Except.ok "r", true⟩),
        (WakeEvent.line "jarvis", ⟨true, true, "b.wav", Except.ok "hi", Except.ok "r", true⟩)] []).calls := by
  decide

/-- Claim C2 as amended: there is no `except` clause in `main`, so a stage
failure in a wake-fired turn is not caught at the turn boundary: it
propagates out of the loop (after the `finally` deletion runs) and
terminates the process, and no later scripted iteration contributes any
call. -/
theorem c2_amended (ev : WakeEvent) (o : Oracle) (rest : List (WakeEvent × Oracle))
    (fs : Fs) (er : Err)
    (hw : detect_wake_word ev = Except.ok true)
    (hr : (runTurn o fs).outcome = TurnOutcome.raised er) :
    (runLoop ((ev, o) :: rest) fs).result = ProcResult.crashed er ∧
    (runLoop ((ev, o) :: rest) fs).calls = (runTurn o fs).calls := by
  simp [runLoop, hw, hr]

/-- Witness for the amended C2 at a concrete transcription failure. -/
theorem c2_witness :
    (runLoop [(WakeEvent.line "jarvis", ⟨true, true, "a.wav", Except.error (), Except.ok "r", true⟩)] []).result
      = ProcResult.crashed Err.transcription ∧
    (runLoop [(WakeEvent.line "jarvis", ⟨true, true, "a.wav", Except.error (), Except.ok "r", true⟩)] []).calls
      = (runTurn ⟨true, true, "a.wav", Except.error (), Except.ok "r", true⟩ []).calls :=
  c2_amended (WakeEvent.line "jarvis") ⟨true, true, "a.wav", Except.error (), Except.ok "r", true⟩
    [] [] Err.transcription rfl rfl

/-- Counterexample to claim C3: when transcription returns the empty
string, the inference collaborator is still called (with the empty
prompt). -/
theorem c3_counterexample :
    Call.infer "" ∈ (runTurn ⟨true, true, "a.wav", Except.ok "", Except.ok "r", true⟩ []).calls := by
  decide

/-- Claim C3 as amended: whenever transcription succeeds, the inference
collaborator is called with the transcript unconditionally — there is no
empty-text guard, so this includes the empty transcript. -/
theorem c3_amended (o : Oracle) (fs : Fs) (t : String)
    (hc : o.captureOk = true) (ha : o.createOk = true)
    (ht : o.transcribeRes = Except.ok t) :
    Call.infer t ∈ (runTurn o fs).calls := by
  rw [runTurn_eq o fs hc ha]
  cases hir : o.inferRes <;> cases hsp : o.speakOk <;> simp [tryBody, ht, hir, hsp]

/-- Witness for the amended C3 at the empty transcript. -/
theorem c3_witness :
    Call.infer "" ∈ (runTurn ⟨true, true, "a.wav", Except.ok "", Except.error (), true⟩ []).calls :=
  c3_amended ⟨true, true, "a.wav", Except.ok "", Except.error (), true⟩ [] "" rfl rfl rfl

/-- Claim C7: when the inference call raises, the playback collaborator is
not called during that turn. -/
theorem c7_no_playback_after_inference_failure (o : Oracle) (fs : Fs) (t : String)
    (hi : o.inferRes = Except.error ()) :
    Call.speak t ∉ (runTurn o fs).calls := by
  cases hc : o.captureOk
  · simp [runTurn, hc]
  · cases ha : o.createOk
    · simp [runTurn, hc, ha]
    · rw [runTurn_eq o fs hc ha]
      cases htr : o.transcribeRes <;> simp [tryBody, htr, hi]

/-- Witness for C7 at a concrete inference failure. -/
theorem c7_witness :
    Call.speak "Paris." ∉
      (runTurn ⟨true, true, "a.wav", Except.ok "hi", Except.error (), true⟩ []).calls :=
  c7_no_playback_after_inference_failure ⟨true, true, "a.wav", Except.ok "hi", Except.error (), true⟩
    [] "Paris." rfl

/-- Claim C8: the release step is idempotent and safe — on an absent path
it leaves the filesystem unchanged and raises no error, and on any
filesystem it never fails. -/
theorem c8_release_idempotent (p : String) (fs gs : Fs) (h : p ∉ fs) :
    releaseArtifact p fs = Except.ok fs ∧ (releaseArtifact p gs).isOk = true := by
  constructor
  · simp [releaseArtifact, os_path_exists, h]
  · rw [releaseArtifact_eq_ok]
    rfl

/-- Witness for C8: releasing a path absent from an empty filesystem. -/
theorem c8_witness :
    releaseArtifact "a.wav" [] = Except.ok [] ∧
    (releaseArtifact "a.wav" ["a.wav"]).isOk = true :=
  c8_release_idempotent "a.wav" [] ["a.wav"] (by decide)

/-- Counterexample to claim C9: a turn whose artifact creation fails has
already performed the capture — `sd.rec` and `sd.wait` run before the
temporary file is created. -/
theorem c9_counterexample :
    (runTurn ⟨true, false, "a.wav", Except.ok "x", Except.ok "r", true⟩ []).outcome
      = TurnOutcome.raised Err.artifact ∧
    Call.capture ∈ (runTurn ⟨true, false, "a.wav", Except.ok "x", Except.ok "r", true⟩ []).calls := by
  decide

/-- Claim C9 as amended: capture precedes artifact creation within the
turn, so an `ArtifactError` during creation occurs only after capture has
completed; the error propagates before transcription starts and leaves
the filesystem unchanged. -/
theorem c9_amended (o : Oracle) (fs : Fs)
    (hc : o.captureOk = true) (ha : o.createOk = false) :
    (runTurn o fs).calls = [Call.capture, Call.create] ∧
    (runTurn o fs).outcome = TurnOutcome.raised Err.artifact ∧
    (runTurn o fs).fs = fs := by
  simp [runTurn, hc, ha]

/-- Witness for the amended C9 at a concrete creation failure. -/
theorem c9_witness :
    (runTurn ⟨true, false, "b.wav", Except.ok "x", Except.ok "r", true⟩ []).calls
      = [Call.capture, Call.create] ∧
    (runTurn ⟨true, false, "b.wav", Except.ok "x", Except.ok "r", true⟩ []).outcome
      = TurnOutcome.raised Err.artifact ∧
    (runTurn ⟨true, false, "b.wav", Except.ok "x", Except.ok "r", true⟩ []).fs = [] :=
  c9_amended ⟨true, false, "b.wav", Except.ok "x", Except.ok "r", true⟩ [] rfl rfl

/-- Counterexample to claim C4: with the credential absent from the
environment, startup succeeds anyway — `os.environ.get` returns `None`
without raising, and `genai.configure` stores it unchecked. -/
theorem c4_counterexample :
    os_environ_get [] "GOOGLE_API_KEY" = none ∧ startup [] = Except.ok ⟨none⟩ :=
  ⟨rfl, rfl⟩

/-- Claim C4 as amended: the absence of the credential is not detected at
startup — startup always succeeds, storing whatever `os.environ.get`
returned — and the failure is delayed to the first inference call, which
errors under the missing key. -/
theorem c4_amended (env : List (String × String)) :
    startup env = Except.ok ⟨os_environ_get env "GOOGLE_API_KEY"⟩ ∧
    (os_environ_get env "GOOGLE_API_KEY" = none →
      ∀ backend prompt,
        ask_gemini ⟨os_environ_get env "GOOGLE_API_KEY"⟩ backend prompt
          = Except.error Err.inference) := by
  refine ⟨rfl, fun h backend prompt => ?_⟩
  simp [ask_gemini, generate_content, h]

/-- Witness for the amended C4 at the empty environment. -/
theorem c4_witness :
    startup [] = Except.ok ⟨os_environ_get [] "GOOGLE_API_KEY"⟩ ∧
    ask_gemini ⟨os_environ_get [] "GOOGLE_API_KEY"⟩ (fun p => Except.ok p) "hello"
      = Except.error Err.inference :=
  ⟨(c4_amended []).1, (c4_amended []).2 rfl (fun p => Except.ok p) "hello"⟩

/-- Every raw device value lands in the 16-bit signed range. -/
theorem intoInt16_bounds (x : Int) : -32768 ≤ intoInt16 x ∧ intoInt16 x < 32768 := by
  unfold intoInt16
  have h1 : 0 ≤ (x + 32768) % 65536 := Int.emod_nonneg _ (by norm_num)
  have h2 : (x + 32768) % 65536 < 65536 := Int.emod_lt_of_pos _ (by norm_num)
  omega

/-- Claim C6: for a capture of duration `D` at rate `R` the artifact holds
exactly `D*R` frames of 16-bit signed samples (one per channel), whatever
the device delivers — the length is the fixed constant duration, never
silence-terminated — and the container header records the channel count,
a 2-byte sample width and the sample rate. -/
theorem c6_capture_format (dev : Option Nat) (mic : Nat → Nat → Int)
    (samplerate channels duration : Nat) :
    (record_audio dev mic samplerate channels duration).frames.length
      = duration * samplerate ∧
    (record_audio dev mic samplerate channels duration).nchannels = channels ∧
    (record_audio dev mic samplerate channels duration).sampwidth = 2 ∧
    (record_audio dev mic samplerate channels duration).framerate = samplerate ∧
    ∀ fr ∈ (record_audio dev mic samplerate channels duration).frames,
      fr.length = channels ∧ ∀ smp ∈ fr, -32768 ≤ smp ∧ smp < 32768 := by
  refine ⟨by simp [record_audio, sd_rec], rfl, rfl, rfl, ?_⟩
  intro fr hfr
  simp only [record_audio, sd_rec, List.mem_map, List.mem_range] at hfr
  obtain ⟨i, _, rfl⟩ := hfr
  refine ⟨by simp, ?_⟩
  intro smp hsmp
  simp only [List.mem_map, List.mem_range] at hsmp
  obtain ⟨c, _, rfl⟩ := hsmp
  exact intoInt16_bounds (mic i c)

/-- Witness for C6 at a 2-frame stereo capture of an out-of-range raw
device value. -/
theorem c6_witness :
    (record_audio none (fun _ _ => 40000) 2 2 1).frames.length = 1 * 2 ∧
    (record_audio none (fun _ _ => 40000) 2 2 1).sampwidth = 2 :=
  ⟨(c6_capture_format none (fun _ _ => 40000) 2 2 1).1,
    (c6_capture_format none (fun _ _ => 40000) 2 2 1).2.2.1⟩

end Jarvis
